import Mathlib

/-!
Verification of the HM-Mcp form-automation engine against its specification.

The definitions below are a shallow embedding of the Python sources
(`bulletproof_submitter.py`, `bulletproof_scraper.py`, `form_scraper.py`).
Pure string/list processing is translated directly; interactions with the
network, the browser and the system clock are passed in as explicit
parameters (outcome values, clock functions), and a Python exception coming
out of such an interaction is modelled by an explicit `exn` outcome.
Python floats appearing in heuristic scores are represented exactly as
rationals; the string slicing `s[:n]` is `truncate n s` (slicing is by code
point, as in Python).
-/

namespace HMMcp

/-- Python single-quote character (written via its code point). -/
def squote : Char := Char.ofNat 39

/-- Python `s[:n]`: the first `n` code points of `s`. -/
def truncate (n : Nat) (s : String) : String := String.mk (s.toList.take n)

/-- The ASCII whitespace class matched by Python `\s` in the regexes used by
the sources. -/
def isPySpace (c : Char) : Bool :=
  c = ' ' || c = Char.ofNat 9 || c = Char.ofNat 10 || c = Char.ofNat 13 ||
  c = Char.ofNat 11 || c = Char.ofNat 12

/-- Python `s.lower()` (ASCII case mapping, all the sources need). -/
def pyLower (s : String) : String := String.mk (s.toList.map Char.toLower)

/-- Python `s.replace(old, new)` for single-character `old`/`new`. -/
def replaceChar (old new : Char) (s : String) : String :=
  String.mk (s.toList.map (fun c => if c = old then new else c))

/-- Split a char list on a separator character (Python `s.split(c)`). -/
def splitOnChar (c : Char) : List Char → List (List Char)
  | [] => [[]]
  | x :: t =>
    match splitOnChar c t with
    | rs =>
      if x = c then [] :: rs
      else match rs with
        | r0 :: rest => (x :: r0) :: rest
        | [] => [[x]]

/-- Python `s.strip()` (ASCII whitespace). -/
def pyStrip (s : String) : String :=
  String.mk (((s.toList.dropWhile isPySpace).reverse.dropWhile isPySpace).reverse)

/-- Python `sep.join(xs)`. -/
def joinWith (sep : String) : List String → String
  | [] => ""
  | [x] => x
  | x :: xs => x ++ sep ++ joinWith sep xs

/-- Contiguous-sublist test on char lists. -/
def infixOfB (needle : List Char) : List Char → Bool
  | [] => needle.isPrefixOf []
  | l@(_ :: t) => needle.isPrefixOf l || infixOfB needle t

/-- Python `needle in hay` on strings. -/
def inStr (needle hay : String) : Bool := infixOfB needle.toList hay.toList

/-- `[a-zA-Z0-9]` as used in the confirmation-number regexes. -/
def isAsciiWordChar (c : Char) : Bool := c.isAlpha || c.isDigit

/-- Case-insensitive character equality (ASCII, matching `re.IGNORECASE`
on the ASCII patterns the sources use). -/
def lcEq (a b : Char) : Bool := a.toLower = b.toLower

/-- Case-insensitive list-prefix test. -/
def isPrefixCI : List Char → List Char → Bool
  | [], _ => true
  | _ :: _, [] => false
  | a :: as, b :: bs => lcEq a b && isPrefixCI as bs

/-- Case-insensitive substring containment on char lists. -/
def containsCI (needle hay : List Char) : Bool :=
  infixOfB (needle.map Char.toLower) (hay.map Char.toLower)

/-- Does some suffix of the list satisfy `p`?  (the scanning loop of
`re.search`). -/
def searchAny (p : List Char → Bool) : List Char → Bool
  | [] => p []
  | l@(_ :: t) => p l || searchAny p t

/-- Split at the first occurrence of `c`: the run before it and the
remainder after it. -/
def takeUntilChar (c : Char) : List Char → Option (List Char × List Char)
  | [] => none
  | x :: t =>
    if x = c then some ([], t)
    else match takeUntilChar c t with
      | some (b, r) => some (x :: b, r)
      | none => none

/-! ## Outcome Classifier (`bulletproof_submitter._safe_process_response`) -/

/-- `strong_success_phrases` from `_safe_detect_success_indicators`. -/
def strongSuccessPhrases : List String :=
  ["thank you", "thanks", "message sent", "form submitted",
   "successfully submitted", "submission successful", "sent successfully",
   "we have received", "received your message", "confirmation"]

/-- URL keywords that upgrade a redirect to `success_url_redirect`. -/
def successUrlKeywords : List String := ["thank", "success", "confirm", "complete"]

/-- The tail `\s*:?\s*[a-zA-Z0-9]+` of the confirmation-number regexes. -/
def matchConfirmTail (l : List Char) : Bool :=
  let l1 := l.dropWhile isPySpace
  let l2 := match l1 with
    | c :: t => if c = ':' then t else l1
    | [] => l1
  match l2.dropWhile isPySpace with
  | c :: _ => isAsciiWordChar c
  | [] => false

/-- One confirmation-number regex, matched at the head of `l`:
keyword, `\s*`, an optional qualifier word, then `matchConfirmTail`.
The qualifier group is optional, so both branches are tried. -/
def matchConfirmAt (kw : List Char) (opts : List (List Char)) (l : List Char) : Bool :=
  isPrefixCI kw l &&
    (let r := (l.drop kw.length).dropWhile isPySpace
     opts.any (fun o => isPrefixCI o r && matchConfirmTail (r.drop o.length)) ||
       matchConfirmTail r)

/-- The three `confirmation_patterns` of `_safe_detect_success_indicators`. -/
def hasConfirmationNumber (content : String) : Bool :=
  let cs := content.toList
  searchAny (matchConfirmAt "confirmation".toList
    ["number".toList, "id".toList, "code".toList]) cs ||
  searchAny (matchConfirmAt "reference".toList
    ["number".toList, "id".toList, "code".toList]) cs ||
  searchAny (matchConfirmAt "ticket".toList
    ["number".toList, "id".toList]) cs

/-- `a.*b` matched at the head of `l` (with `.` not crossing a newline),
case-insensitively, as in `re.search('class.*success', ...)`. -/
def dotStarAt (a b : List Char) (l : List Char) : Bool :=
  isPrefixCI a l && dotStarScan b (l.drop a.length)
where
  dotStarScan (b : List Char) : List Char → Bool
    | [] => isPrefixCI b []
    | l@(c :: t) => isPrefixCI b l || (c ≠ Char.ofNat 10 && dotStarScan b t)

/-- The six `success_elements` patterns (`class.*success` … `id.*confirm`). -/
def hasSuccessElement (content : String) : Bool :=
  let cs := content.toList
  [("class", "success"), ("class", "thank"), ("class", "confirm"),
   ("id", "success"), ("id", "thank"), ("id", "confirm")].any
    (fun ab => searchAny (dotStarAt ab.1.toList ab.2.toList) cs)

/-- `_safe_detect_success_indicators`. -/
def detectSuccessIndicators (content finalUrl originalUrl : String) : List String :=
  let urlInds : List String :=
    if finalUrl ≠ originalUrl ∧ finalUrl ≠ "" then
      if successUrlKeywords.any (fun k => inStr k (pyLower finalUrl)) then
        ["success_url_redirect"]
      else ["url_changed"]
    else []
  let contentLower := pyLower content
  let phraseInds :=
    (strongSuccessPhrases.filter (fun p => inStr p contentLower)).map
      (fun p => "text_" ++ replaceChar ' ' '_' p)
  let confirmInds := if hasConfirmationNumber content then ["confirmation_number"] else []
  let elemInds := if hasSuccessElement content then ["success_element"] else []
  urlInds ++ phraseInds ++ confirmInds ++ elemInds

/-- The `error_phrases` table of `_safe_detect_error_indicators`. -/
def errorPhrases : List (String × String) :=
  [("error", "error_general"), ("failed", "error_failed"),
   ("invalid", "error_invalid"), ("required field", "error_required"),
   ("missing", "error_missing"), ("try again", "error_retry"),
   ("problem", "error_problem"), ("incorrect", "error_incorrect"),
   ("not allowed", "error_not_allowed"), ("forbidden", "error_forbidden")]

/-- One error-CSS regex `attr=["'][^"']*word[^"']*["']` matched at the head. -/
def matchErrCssAt (attr word : List Char) (l : List Char) : Bool :=
  isPrefixCI (attr ++ ['=']) l &&
    (match l.drop (attr.length + 1) with
     | q :: r =>
       (q = '"' || q = squote) &&
         (let body := r.takeWhile (fun c => c ≠ '"' ∧ c ≠ squote)
          decide (r.drop body.length ≠ []) && containsCI word body)
     | [] => false)

/-- The four `error_patterns` CSS regexes of `_safe_detect_error_indicators`. -/
def hasErrorElement (content : String) : Bool :=
  let cs := content.toList
  [("class", "error"), ("class", "danger"), ("class", "alert"),
   ("id", "error")].any
    (fun aw => searchAny (matchErrCssAt aw.1.toList aw.2.toList) cs)

/-- `_safe_detect_error_indicators`. -/
def detectErrorIndicators (content : String) : List String :=
  let contentLower := pyLower content
  let phraseInds := (errorPhrases.filter (fun pi => inStr pi.1 contentLower)).map (·.2)
  phraseInds ++ (if hasErrorElement content then ["error_element"] else [])

/-- `re.sub(r'<[^>]+>', '', line)`: drop each `<`…`>` run with a non-empty
body, left to right. -/
def stripTags (l : List Char) : List Char := go l.length l
where
  go : Nat → List Char → List Char
    | 0, l => l
    | _, [] => []
    | fuel + 1, c :: t =>
      if c = '<' then
        match takeUntilChar '>' t with
        | some (body, rem) =>
          if body ≠ [] then go fuel rem else c :: go fuel t
        | none => c :: go fuel t
      else c :: go fuel t

/-- `re.sub(r'\s+', ' ', s)`: collapse whitespace runs to single spaces. -/
def collapseWs (l : List Char) : List Char := go false l
where
  go : Bool → List Char → List Char
    | _, [] => []
    | prevSpace, c :: t =>
      if isPySpace c then
        if prevSpace then go true t else ' ' :: go true t
      else c :: go false t

/-- Keyword list used when scanning for a confirmation line. -/
def confirmationKeywords : List String :=
  ["thank you", "success", "sent", "received", "confirmation"]

/-- `_safe_extract_confirmation`. -/
def extractConfirmation (content : String) (successIndicators : List String) : String :=
  match ((splitOnChar (Char.ofNat 10) content.toList).map String.mk).findSome? (fun line =>
      let lineClean := pyStrip line
      if 10 < lineClean.length ∧ lineClean.length < 200 ∧
          confirmationKeywords.any (fun k => inStr k (pyLower lineClean)) then
        let cleanLine := pyStrip (String.mk (collapseWs (stripTags lineClean.toList)))
        if cleanLine ≠ "" ∧ 10 < cleanLine.length then some cleanLine else none
      else none) with
  | some line => line
  | none =>
    if successIndicators ≠ [] then
      "Form submission appears to have been successful"
    else ""

/-- Result record built by `_safe_process_response`. -/
structure ResponseResult where
  success : Bool
  successScore : Nat
  originalUrl : String
  finalUrl : String
  urlChanged : Bool
  successIndicators : List String
  errorIndicators : List String
  confirmation : String
  message : String
  deriving Repr, DecidableEq

/-- `_safe_process_response` (on the non-exception path): gather the
indicators, score them, and produce the result record. -/
def processResponse (content currentUrl originalUrl : String) : ResponseResult :=
  let successIndicators := detectSuccessIndicators content currentUrl originalUrl
  let errorIndicators := detectErrorIndicators content
  let hasErrors : Bool := !errorIndicators.isEmpty
  let hasSuccess : Bool := !successIndicators.isEmpty
  let urlChanged : Bool := currentUrl ≠ originalUrl
  let successScore : Nat :=
    (if hasSuccess then 50 else 0) + (if urlChanged then 30 else 0) +
      (if !hasErrors then 20 else 0)
  let submissionSuccess : Bool := 50 ≤ successScore && !hasErrors
  let confirmation := extractConfirmation content successIndicators
  let message :=
    if submissionSuccess then
      if confirmation ≠ "" then confirmation
      else if urlChanged then
        "Form submitted successfully (redirected to confirmation page)"
      else "Form appears to have been submitted successfully"
    else
      if errorIndicators ≠ [] then
        "Submission may have failed: " ++ joinWith "; " (errorIndicators.take 2)
      else "Form submission result unclear - please verify manually"
  { success := submissionSuccess
    successScore := successScore
    originalUrl := originalUrl
    finalUrl := currentUrl
    urlChanged := urlChanged
    successIndicators := successIndicators
    errorIndicators := errorIndicators
    confirmation := confirmation
    message := message }

/-! ## Fuzzy matcher (`bulletproof_submitter._safe_find_fuzzy_match`) -/

/-- Inner cell computation of the `simple_edit_distance` dynamic program:
walk `s2` and the previous row together, carrying the last cell written. -/
def levInner (c1 : Char) : List Char → List Nat → Nat → List Nat
  | c2 :: rest, p0 :: p1 :: ps, dleft =>
    let cell := min (p1 + 1) (min (dleft + 1) (p0 + (if c1 = c2 then 0 else 1)))
    cell :: levInner c1 rest (p1 :: ps) cell
  | _, _, _ => []

/-- One row step of the dynamic program (`current_row` of the source). -/
def levStep (s2 : List Char) (prev : List Nat) (c1 : Char) : List Nat :=
  match prev with
  | p0 :: _ => (p0 + 1) :: levInner c1 s2 prev (p0 + 1)
  | [] => []

/-- The row-by-row dynamic program of `simple_edit_distance`, after the
argument swap has put the longer string first. -/
def levDP (s1 s2 : List Char) : Nat :=
  if s2.isEmpty then s1.length
  else (s1.foldl (levStep s2) (List.range (s2.length + 1))).getLastD 0

/-- `simple_edit_distance` from `_safe_find_fuzzy_match` (swaps so the first
argument is the longer one, then runs the row dynamic program). -/
def simpleEditDistance (a b : String) : Nat :=
  if a.length < b.length then levDP b.toList a.toList else levDP a.toList b.toList

/-- Python `min(xs, key=f)` seeded with `best`: the first element attaining
the minimal key wins. -/
def pickMinBy (f : α → Nat) : α → List α → α
  | best, [] => best
  | best, x :: xs => pickMinBy f (if f x < f best then x else best) xs

/-- The exact-match stage of `_safe_find_fuzzy_match`. -/
def fuzzyExactStage (targetLower : String) (candidates : List String) : Option String :=
  candidates.find? (fun c => c ≠ "" && pyLower c = targetLower)

/-- The bidirectional-substring stage: all non-empty candidates sharing a
substring relation with the target. -/
def fuzzySubstringMatches (targetLower : String) (candidates : List String) : List String :=
  candidates.filter (fun c =>
    c ≠ "" && (inStr targetLower (pyLower c) || inStr (pyLower c) targetLower))

/-- The edit-distance stage data: candidates longer than 2 characters paired
with their distance to the target, kept when the distance is within a third
of the longer length. -/
def fuzzyCloseMatches (target : String) (candidates : List String) : List (String × Nat) :=
  (candidates.filterMap (fun c =>
      if c ≠ "" ∧ 2 < c.length then
        some (c, simpleEditDistance (pyLower target) (pyLower c))
      else none)).filter
    (fun cd => cd.2 ≤ max target.length cd.1.length / 3)

/-- `_safe_find_fuzzy_match`: exact match, then shortest bidirectional
substring match, then closest edit-distance match. -/
def findFuzzyMatch (target : String) (candidates : List String) : Option String :=
  if target = "" ∨ candidates = [] then none
  else
    let targetLower := pyLower target
    match fuzzyExactStage targetLower candidates with
    | some c => some c
    | none =>
      match fuzzySubstringMatches targetLower candidates with
      | m :: ms => some (pickMinBy String.length m ms)
      | [] =>
        match fuzzyCloseMatches target candidates with
        | cd :: cds => some (pickMinBy Prod.snd cd cds).1
        | [] => none

/-! ## Field-Value Matcher
(`bulletproof_submitter._find_field_value_multiple_strategies`) -/

/-- Python dict lookup on an association list with unique keys. -/
def dictGet (d : List (String × String)) (k : String) : Option String :=
  (d.find? (fun kv => kv.1 = k)).map (·.2)

/-- The `field_mappings` concept table of strategy 4. -/
def fieldMappings : List (String × List String) :=
  [("email", ["email", "e-mail", "mail", "email_address"]),
   ("name", ["name", "full_name", "fullname", "username"]),
   ("first_name", ["first_name", "firstname", "fname"]),
   ("last_name", ["last_name", "lastname", "lname"]),
   ("phone", ["phone", "telephone", "mobile", "phone_number"]),
   ("message", ["message", "comment", "comments", "description"]),
   ("subject", ["subject", "title", "topic"])]

/-- `_find_field_value_multiple_strategies`: exact key equality, then
case-insensitive equality (via a lowered dict where later keys overwrite
earlier ones), then bidirectional substring containment, then the concept
table; the first hit wins. -/
def findFieldValueMultipleStrategies (fieldData : List (String × String))
    (identifier name idAttr placeholder : String) : Option String :=
  let keys3 := [idAttr, name, identifier]
  match keys3.findSome? (fun k => if k ≠ "" then dictGet fieldData k else none) with
  | some v => some v
  | none =>
    let loweredDict := (fieldData.map (fun kv => (pyLower kv.1, kv.2))).reverse
    match keys3.findSome? (fun k =>
        if k ≠ "" then dictGet loweredDict (pyLower k) else none) with
    | some v => some v
    | none =>
      match fieldData.findSome? (fun kv =>
          if [idAttr, name, identifier, placeholder].any (fun fk =>
              fk ≠ "" && (inStr (pyLower kv.1) (pyLower fk) ||
                inStr (pyLower fk) (pyLower kv.1))) then
            some kv.2
          else none) with
      | some v => some v
      | none =>
        keys3.findSome? (fun fk =>
          if fk = "" then none
          else fieldData.findSome? (fun kv =>
            if fieldMappings.any (fun cv =>
                cv.2.contains (pyLower fk) && cv.2.contains (pyLower kv.1)) then
              some kv.2
            else none))

/-! ## Attempt history (`BulletproofFormSubmitter._safe_record_attempt`) -/

/-- `self._max_history` from `BulletproofFormSubmitter.__init__`. -/
def maxHistoryLen : Nat := 50

/-- One entry of `submission_history` as built by `_safe_record_attempt`
(the wall-clock reading is an explicit input). -/
structure AttemptRecord where
  timestamp : Nat
  url : String
  attempt : Nat
  success : Bool
  error : String
  fieldCount : Nat
  methodUsed : String
  submissionTime : Nat
  deriving Repr, DecidableEq

/-- Result dictionary of one `_safe_submit_with_browser` call (that function
catches every exception internally and always returns such a dictionary). -/
structure BrowserSubmitResult where
  success : Bool
  message : String := ""
  error : Option String := none
  methodUsed : Option String := none
  finalUrl : Option String := none
  deriving Repr, DecidableEq

/-- The `record` dictionary of `_safe_record_attempt`. -/
def mkAttemptRecord (now : Nat) (url : String) (fieldData : List (String × String))
    (r : BrowserSubmitResult) (attempt : Nat) : AttemptRecord :=
  { timestamp := now
    url := truncate 200 url
    attempt := attempt
    success := r.success
    error := match r.error with
      | some e => if e ≠ "" then truncate 200 e else ""
      | none => ""
    fieldCount := fieldData.length
    methodUsed := r.methodUsed.getD "unknown"
    submissionTime := 0 }

/-- Append to `submission_history`, then keep only the most recent
`maxHistoryLen` records (`self.submission_history[-self._max_history:]`). -/
def recordAttempt (hist : List AttemptRecord) (r : AttemptRecord) : List AttemptRecord :=
  let h := hist ++ [r]
  if maxHistoryLen < h.length then h.drop (h.length - maxHistoryLen) else h

/-! ## Retry loop of `submit_form_enhanced` -/

/-- Outcome of the body of one retry iteration: either the structured result
dictionary of `_safe_submit_with_browser`, or an exception escaping the
iteration body (the `except` arm of the loop). -/
inductive AttemptOutcome where
  | res (r : BrowserSubmitResult)
  | crash (msg : String)

/-- Mutable state of the retry loop: the fields of `result` the loop
updates, the history list, and the sequence of backoff delays slept. -/
structure LoopSt where
  finalResult : Option BrowserSubmitResult := none
  attempts : Nat := 0
  lastError : Option String := none
  history : List AttemptRecord
  delays : List Nat := []
  deriving Repr

/-- One iteration of `for attempt in range(max_retries)`: record the
attempt, stop on success, otherwise compute the capped backoff
`min((attempt + 1) * 2, 10)` (2 s flat on a crashed iteration), slept only
when another attempt remains.  A previous success short-circuits. -/
def submitLoopStep (f : Nat → AttemptOutcome) (clock : Nat → Nat) (url : String)
    (fieldData : List (String × String)) (maxRetries : Nat)
    (st : LoopSt) (attempt : Nat) : LoopSt :=
  if st.finalResult.isSome then st
  else
    match f attempt with
    | .res r =>
      let hist2 := recordAttempt st.history
        (mkAttemptRecord (clock attempt) url fieldData r (attempt + 1))
      if r.success then
        { st with finalResult := some r, attempts := attempt + 1, history := hist2 }
      else
        { st with
            attempts := attempt + 1
            history := hist2
            lastError := some (r.error.getD "Unknown submission error")
            delays :=
              if attempt < maxRetries - 1 then
                st.delays ++ [min ((attempt + 1) * 2) 10]
              else st.delays }
    | .crash m =>
      { st with
          attempts := attempt + 1
          lastError := some ("Attempt " ++ toString (attempt + 1) ++ " crashed: " ++
            truncate 100 m)
          delays :=
            if attempt < maxRetries - 1 then st.delays ++ [2] else st.delays }

/-- The whole retry loop of `submit_form_enhanced`. -/
def submitLoop (f : Nat → AttemptOutcome) (clock : Nat → Nat) (url : String)
    (fieldData : List (String × String)) (maxRetries : Nat)
    (hist0 : List AttemptRecord) : LoopSt :=
  (List.range maxRetries).foldl (submitLoopStep f clock url fieldData maxRetries)
    { history := hist0 }

/-! ## Validation (`validate_submission_enhanced`) -/

/-- Outcome of a lower-layer interaction: a value, or a raised exception
carrying its message. -/
inductive LowerResult (α : Type) where
  | ok (a : α)
  | exn (msg : String)

/-- One option of a select field. -/
structure SelectOpt where
  value : String
  text : String
  selected : Bool
  deriving Repr, DecidableEq

/-- A field dictionary as produced by the extractors (every key the
extractors write is present; absent attributes are empty strings). -/
structure FieldDesc where
  tag : String := "input"
  type : String := "text"
  name : String := ""
  id : String := ""
  identifier : String := ""
  placeholder : String := ""
  required : Bool := false
  label : String := ""
  value : String := ""
  maxlength : String := ""
  pattern : String := ""
  options : List SelectOpt := []
  disabled : Bool := false
  readonly : Bool := false
  validationRules : List String := []
  deriving Repr, DecidableEq

/-- Result dictionary of `extract_form_fields_enhanced`. -/
structure FormExtractResult where
  success : Bool
  methodUsed : String
  fields : List FieldDesc
  formAction : String
  formMethod : String
  formIndex : Nat
  error : Option String
  deriving Repr, DecidableEq

/-- `_safe_find_field_value`: exact key match on id/name/identifier, then
case-insensitive match, else the empty string. -/
def safeFindFieldValue (field : FieldDesc) (fieldData : List (String × String)) : String :=
  match [field.id, field.name, field.identifier].findSome?
      (fun k => if k ≠ "" then dictGet fieldData k else none) with
  | some v => v
  | none =>
    let fieldKeys := ([field.id, field.name, field.identifier].filter (· ≠ "")).map pyLower
    match fieldData.findSome?
        (fun kv => if fieldKeys.contains (pyLower kv.1) then some kv.2 else none) with
    | some v => v
    | none => ""

/-- Python `int(s)` on a string: optional surrounding whitespace, optional
sign, at least one digit; `none` models the raised `ValueError`. -/
def pyInt? (s : String) : Option Int :=
  let digitsVal : List Char → Option Nat := fun l =>
    if l ≠ [] ∧ l.all Char.isDigit then
      some (l.foldl (fun a c => a * 10 + (c.toNat - 48)) 0)
    else none
  match (pyStrip s).toList with
  | '+' :: ds => (digitsVal ds).map Int.ofNat
  | '-' :: ds => (digitsVal ds).map (fun n => -(n : Int))
  | ds => (digitsVal ds).map Int.ofNat

/-- Characters kept by `re.sub(r'[^\d+\-\(\)\s]', '', value)`. -/
def isPhoneChar (c : Char) : Bool :=
  c.isDigit || c = '+' || c = '-' || c = '(' || c = ')' || isPySpace c

/-- `_safe_validate_field_value`; `rx pat v` is the oracle for
`re.match(pat, v)` (`none` models a regex-compilation error, which the
source swallows).  A `ValueError` from `int(max_length)` hits the
function-level `except` and discards all issues. -/
def safeValidateFieldValue (rx : String → String → Option Bool)
    (field : FieldDesc) (value : String) : List String :=
  let fieldType := pyLower field.type
  let label := field.label
  let typeIssues : List String :=
    if fieldType = "email" then
      if ¬ inStr "@" value ∨
          ¬ inStr "." (String.mk ((splitOnChar '@' value.toList).getLastD [])) then
        [label ++ ": Invalid email format"]
      else []
    else if fieldType = "url" then
      if ¬ (("http://".toList.isPrefixOf value.toList) ∨
            ("https://".toList.isPrefixOf value.toList) ∨
            ("www.".toList.isPrefixOf value.toList)) then
        [label ++ ": Invalid URL format"]
      else []
    else if fieldType = "tel" then
      if (value.toList.filter isPhoneChar).length < 7 then
        [label ++ ": Phone number seems too short"]
      else []
    else []
  if field.maxlength ≠ "" ∧ (pyInt? field.maxlength).isNone then []
  else
    let lenIssues : List String :=
      if field.maxlength ≠ "" then
        match pyInt? field.maxlength with
        | some n =>
          if (value.length : Int) > n then
            [label ++ ": Value too long (max " ++ field.maxlength ++ " characters)"]
          else []
        | none => []
      else []
    let patIssues : List String :=
      if field.pattern ≠ "" then
        match rx field.pattern value with
        | some false => [label ++ ": Value doesn" ++ String.mk [squote] ++
            "t match required pattern"]
        | _ => []
      else []
    typeIssues ++ lenIssues ++ patIssues

/-- Result dictionary of `validate_submission_enhanced`.  The float
`match_score` is represented as an exact rational. -/
structure ValidateResult where
  valid : Bool
  issues : List String
  warnings : List String
  suggestions : List String
  fieldsChecked : Nat
  dataProvided : Nat
  methodUsed : String
  matchedFields : Option Nat := none
  totalFields : Option Nat := none
  matchScore : Option ℚ := none
  deriving Repr, DecidableEq

/-- Python `set.add` modelled on an insertion-ordered duplicate-free list. -/
def addUnique (s : List String) (x : String) : List String :=
  if s.contains x then s else s ++ [x]

/-- State threaded through the per-field validation loop:
issues, suggestions, matched-field keys. -/
structure VFieldSt where
  issues : List String := []
  suggestions : List String := []
  matched : List String := []
  deriving Repr

/-- The body of `for field in fields` in `validate_submission_enhanced`. -/
def validateFieldStep (rx : String → String → Option Bool)
    (fieldData : List (String × String)) (st : VFieldSt) (field : FieldDesc) : VFieldSt :=
  let fieldId := field.identifier
  let fieldName := field.name
  let fieldLabel := field.label
  let key := if fieldId ≠ "" then fieldId else fieldName
  let provided := safeFindFieldValue field fieldData
  let st1 :=
    if field.required then
      if provided = "" ∨ pyStrip provided = "" then
        { st with
            issues := st.issues ++ ["Required field missing: " ++ fieldLabel]
            suggestions := st.suggestions ++ ["Provide value for: " ++ key] }
      else { st with matched := addUnique st.matched key }
    else st
  if provided ≠ "" then
    { st1 with
        matched := addUnique st1.matched key
        issues := st1.issues ++ safeValidateFieldValue rx field provided }
  else st1

/-- The `known_fields` set: every non-empty name/id/identifier of the form. -/
def knownFieldKeys (fields : List FieldDesc) : List String :=
  fields.foldl (fun acc field =>
    [field.name, field.id, field.identifier].foldl
      (fun a v => if v ≠ "" then addUnique a v else a) acc) []

/-- The loop over provided keys that are neither known nor matched:
fuzzy suggestions or unknown-field warnings. -/
def unknownKeySweep (fieldData : List (String × String)) (known matched : List String) :
    List String × List String :=
  fieldData.foldl (fun ws kv =>
    if ¬ known.contains kv.1 ∧ ¬ matched.contains kv.1 then
      match findFuzzyMatch kv.1 known with
      | some best =>
        (ws.1, ws.2 ++ [String.mk [squote] ++ kv.1 ++ String.mk [squote] ++
          " might be " ++ String.mk [squote] ++ best ++ String.mk [squote]])
      | none => (ws.1 ++ ["Unknown field: " ++ kv.1], ws.2)
    else ws) ([], [])

/-- `validate_submission_enhanced`.  `formOutcome` is the outcome of the
`extract_form_fields_enhanced` call (its exception arm is the
`except` of the surrounding `try`). -/
def validateSubmissionEnhanced (rx : String → String → Option Bool) (url : String)
    (fieldData : List (String × String))
    (formOutcome : LowerResult FormExtractResult) : ValidateResult :=
  if url = "" then
    { valid := false, issues := ["Invalid URL provided"], warnings := [],
      suggestions := [], fieldsChecked := 0, dataProvided := fieldData.length,
      methodUsed := "input_validation" }
  else if fieldData = [] then
    { valid := false, issues := ["No field data provided or invalid format"],
      warnings := [], suggestions := [], fieldsChecked := 0, dataProvided := 0,
      methodUsed := "input_validation" }
  else
    match formOutcome with
    | .exn e =>
      { valid := false, issues := ["Validation failed: " ++ truncate 100 e],
        warnings := ["Validation system encountered an error"], suggestions := [],
        fieldsChecked := 0, dataProvided := fieldData.length,
        methodUsed := "error_fallback" }
    | .ok fr =>
      if ¬ fr.success then
        { valid := false,
          issues := ["Cannot validate: " ++ fr.error.getD "Unknown error"],
          warnings := ["Form structure analysis failed"], suggestions := [],
          fieldsChecked := 0, dataProvided := fieldData.length,
          methodUsed := fr.methodUsed }
      else
        let fields := fr.fields
        let fieldSt := fields.foldl (validateFieldStep rx fieldData) {}
        let known := knownFieldKeys fields
        let sweep := unknownKeySweep fieldData known fieldSt.matched
        let matchedCount := fieldSt.matched.length
        { valid := fieldSt.issues.isEmpty
          issues := fieldSt.issues
          warnings := sweep.1
          suggestions := fieldSt.suggestions ++ sweep.2
          fieldsChecked := fields.length
          dataProvided := fieldData.length
          methodUsed := fr.methodUsed
          matchedFields := some matchedCount
          totalFields := some fields.length
          matchScore := some ((matchedCount : ℚ) / (max fieldData.length 1 : ℚ)) }

/-! ## `submit_form_enhanced` -/

/-- The `validation` entry of the submission result: the validation result
dictionary, or the fallback written when validation itself raised. -/
inductive StoredValidation where
  | ok (v : ValidateResult)
  | errored (msg : String)
  deriving Repr

/-- Result dictionary of `submit_form_enhanced`. -/
structure SubmitResult where
  success : Bool
  message : String
  methodUsed : String
  attempts : Nat
  error : Option String
  submissionTime : Nat
  validation : Option StoredValidation
  warnings : List String := []
  finalUrl : Option String := none
  deriving Repr

/-- `submit_form_enhanced`: input validation, pre-submission validation
(failures tolerated), then the retry loop; returns the result together with
the updated attempt history.  `validationOutcome` is the outcome of the
`validate_submission_enhanced` call, `f` gives the outcome of each retry
iteration, `clock` the wall-clock reading at each recording, and `elapsed`
the measured `time.time() - submission_start`. -/
def submitFormEnhanced (url : String) (fieldData : List (String × String))
    (maxRetries : Nat) (validationOutcome : LowerResult ValidateResult)
    (f : Nat → AttemptOutcome) (clock : Nat → Nat) (elapsed : Nat)
    (hist0 : List AttemptRecord) : SubmitResult × List AttemptRecord :=
  if url = "" ∨ fieldData = [] then
    ({ success := false
       message := "Submission failed due to invalid input"
       methodUsed := "unknown"
       attempts := 0
       error := some "Invalid input: URL and field_data are required"
       submissionTime := 0
       validation := none }, hist0)
  else
    let validation : StoredValidation :=
      match validationOutcome with
      | .ok v => .ok v
      | .exn e => .errored (truncate 100 e)
    let warnings : List String :=
      match validationOutcome with
      | .ok v => if ¬ v.valid then v.issues else []
      | .exn _ => []
    let out := submitLoop f clock url fieldData maxRetries hist0
    match out.finalResult with
    | some r =>
      ({ success := true
         message := r.message
         methodUsed := "browser_automation"
         attempts := out.attempts
         error := out.lastError
         submissionTime := elapsed
         validation := some validation
         warnings := warnings
         finalUrl := r.finalUrl }, out.history)
    | none =>
      ({ success := false
         message := "Form submission failed after " ++ toString maxRetries ++ " attempts"
         methodUsed := "failed_all_attempts"
         attempts := out.attempts
         error := out.lastError
         submissionTime := elapsed
         validation := some validation
         warnings := warnings }, out.history)

/-! ## DOM elements (inputs to the browser-side extractors) -/

/-- An option element as seen through the DOM interface. -/
structure DomOpt where
  attrs : List (String × String)
  text : String
  deriving Repr, DecidableEq

/-- A form element as seen through the DOM interface.  `labelByFor` is the
outcome of the `label[for=id]` DOM query (`some t`: a label element with
text `t` was found), `optionEls` the child option elements of a select. -/
structure Element where
  tag : String
  attrs : List (String × String)
  text : String := ""
  labelByFor : Option String := none
  optionEls : List DomOpt := []
  deriving Repr, DecidableEq

/-- `element.attr(name)`: the attribute value when the attribute is
present. -/
def eattr (e : Element) (name : String) : Option String := dictGet e.attrs name

/-- `element.attr(name) or default` (the empty string is falsy). -/
def eattrOr (e : Element) (name d : String) : String :=
  match eattr e name with
  | some v => if v ≠ "" then v else d
  | none => d

/-- `_generate_label_from_name`: underscores/hyphens to spaces, camelCase
split (`re.sub(r'([a-z])([A-Z])', r'\1 \2', ...)`), then `str.title()`. -/
def camelSplit : List Char → List Char
  | [] => []
  | [a] => [a]
  | a :: b :: rest =>
    if a.isLower ∧ b.isUpper then a :: ' ' :: b :: camelSplit rest
    else a :: camelSplit (b :: rest)

/-- Python `str.title()` (ASCII): a letter is uppercased after a non-letter
and lowercased after a letter. -/
def pyTitle (l : List Char) : List Char := go false l
where
  go : Bool → List Char → List Char
    | _, [] => []
    | prevCased, c :: t =>
      let cased := c.isAlpha
      (if cased then (if prevCased then c.toLower else c.toUpper) else c) ::
        go cased t

/-- `bulletproof_scraper._generate_label_from_name`. -/
def generateLabelFromName (name : String) : String :=
  if name = "" then "Unnamed field"
  else
    String.mk (pyTitle (camelSplit
      (replaceChar '-' ' ' (replaceChar '_' ' ' name)).toList))

/-- `bulletproof_scraper._find_label_by_for`: needs an id, a found label
element, and non-empty label text. -/
def findLabelByFor (e : Element) : String :=
  if (eattr e "id").getD "" ≠ "" then
    match e.labelByFor with
    | some t => if t ≠ "" then pyStrip t else ""
    | none => ""
  else ""

/-- `bulletproof_scraper._safe_find_label`: label-by-for, aria-label,
placeholder, then a label generated from name/id; first candidate that is
non-blank after stripping wins. -/
def safeFindLabel (e : Element) : String :=
  let cands : List (Option String) :=
    [some (findLabelByFor e), eattr e "aria-label", eattr e "placeholder",
     some (generateLabelFromName
       (let n := (eattr e "name").getD ""
        if n ≠ "" then n else (eattr e "id").getD ""))]
  match cands.findSome? (fun c =>
      match c with
      | some t => if t ≠ "" ∧ pyStrip t ≠ "" then some (pyStrip t) else none
      | none => none) with
  | some t => t
  | none => "Unnamed field"

/-- Accumulating field construction shared by all extractor loops: walk the
raw items, skip the filtered ones, and append a field built from the item
and the current length of the output (the positional index the sources use
for fallback identifiers). -/
def accumFields (g : α → Nat → FieldDesc) (skip : α → Bool)
    (l : List α) (acc0 : List FieldDesc) : List FieldDesc :=
  l.foldl (fun acc x => if skip x then acc else acc ++ [g x acc.length]) acc0

/-- Subtypes skipped by `_extract_fields_with_browser_safe` (note: only
three of them). -/
def browserSkipTypes : List String := ["hidden", "submit", "button"]

/-- Subtypes skipped by `_parse_fields_from_html` and by
`form_scraper._extract_field_details_from_element`. -/
def htmlSkipTypes : List String := ["hidden", "submit", "button", "image", "reset"]

/-- Input-field dictionary of `_extract_fields_with_browser_safe`. -/
def browserInputField (e : Element) (n : Nat) : FieldDesc :=
  { tag := "input"
    type := eattrOr e "type" "text"
    name := (eattr e "name").getD ""
    id := (eattr e "id").getD ""
    identifier :=
      (let i := (eattr e "id").getD ""
       if i ≠ "" then i
       else
         let nm := (eattr e "name").getD ""
         if nm ≠ "" then nm else "input_" ++ toString n)
    placeholder := (eattr e "placeholder").getD ""
    required := (eattr e "required").isSome
    label := safeFindLabel e
    value := (eattr e "value").getD ""
    maxlength := (eattr e "maxlength").getD ""
    pattern := (eattr e "pattern").getD "" }

/-- Textarea-field dictionary of `_extract_fields_with_browser_safe`. -/
def browserTextareaField (e : Element) (n : Nat) : FieldDesc :=
  { tag := "textarea"
    type := "textarea"
    name := (eattr e "name").getD ""
    id := (eattr e "id").getD ""
    identifier :=
      (let i := (eattr e "id").getD ""
       if i ≠ "" then i
       else
         let nm := (eattr e "name").getD ""
         if nm ≠ "" then nm else "textarea_" ++ toString n)
    placeholder := (eattr e "placeholder").getD ""
    required := (eattr e "required").isSome
    label := safeFindLabel e
    value := e.text
    maxlength := (eattr e "maxlength").getD ""
    pattern := "" }

/-- Select-field dictionary of `_extract_fields_with_browser_safe`. -/
def browserSelectField (e : Element) (n : Nat) : FieldDesc :=
  { tag := "select"
    type := "select"
    name := (eattr e "name").getD ""
    id := (eattr e "id").getD ""
    identifier :=
      (let i := (eattr e "id").getD ""
       if i ≠ "" then i
       else
         let nm := (eattr e "name").getD ""
         if nm ≠ "" then nm else "select_" ++ toString n)
    placeholder := ""
    required := (eattr e "required").isSome
    label := safeFindLabel e
    value := ""
    maxlength := ""
    pattern := ""
    options := e.optionEls.map (fun o =>
      { value := (dictGet o.attrs "value").getD ""
        text := o.text
        selected := (dictGet o.attrs "selected").isSome }) }

/-- `_extract_fields_with_browser_safe`: the three per-tag loops share one
growing field list, and only input elements are filtered by subtype. -/
def extractFieldsWithBrowser (inputs textareas selects : List Element) : List FieldDesc :=
  let f1 := accumFields browserInputField
    (fun e => browserSkipTypes.contains (pyLower (eattrOr e "type" "text"))) inputs []
  let f2 := accumFields browserTextareaField (fun _ => false) textareas f1
  accumFields browserSelectField (fun _ => false) selects f2

/-! ## `form_scraper` field extraction -/

/-- `form_scraper._find_field_label`: label element (returned even with
empty text), aria-label, placeholder, then a title-cased name (without the
camelCase split of the bulletproof variant). -/
def fsFindFieldLabel (e : Element) : String :=
  let fieldId := (eattr e "id").getD ""
  if fieldId ≠ "" ∧ e.labelByFor.isSome then pyStrip (e.labelByFor.getD "")
  else
    match eattr e "aria-label" with
    | some a =>
      if a ≠ "" then pyStrip a
      else fsLabelTail e
    | none => fsLabelTail e
where
  fsLabelTail (e : Element) : String :=
    match eattr e "placeholder" with
    | some p =>
      if p ≠ "" then pyStrip p
      else fsLabelName e
    | none => fsLabelName e
  fsLabelName (e : Element) : String :=
    match eattr e "name" with
    | some n =>
      if n ≠ "" then
        String.mk (pyTitle (replaceChar '-' ' ' (replaceChar '_' ' ' n)).toList)
      else "Unnamed field"
    | none => "Unnamed field"

/-- `form_scraper._extract_validation_rules`. -/
def fsValidationRules (e : Element) : List String :=
  let req : List String :=
    match eattr e "required" with
    | some v => if v ≠ "" then ["required"] else []
    | none => []
  let ty := pyLower ((eattr e "type").getD "")
  let tyRule : List String :=
    if ty = "email" then ["email_format"]
    else if ty = "url" then ["url_format"]
    else if ty = "tel" then ["phone_format"]
    else []
  let patRule : List String :=
    match eattr e "pattern" with
    | some p => if p ≠ "" then ["pattern: " ++ p] else []
    | none => []
  let minRule : List String :=
    match eattr e "minlength" with
    | some v => if v ≠ "" then ["min_length: " ++ v] else []
    | none => []
  let maxRule : List String :=
    match eattr e "maxlength" with
    | some v => if v ≠ "" then ["max_length: " ++ v] else []
    | none => []
  req ++ tyRule ++ patRule ++ minRule ++ maxRule

/-- Field dictionary of `form_scraper._extract_field_details_from_element`;
its identifier falls back to the empty string. -/
def fsField (e : Element) (_n : Nat) : FieldDesc :=
  { tag := e.tag
    type := eattrOr e "type" "text"
    name := (eattr e "name").getD ""
    id := (eattr e "id").getD ""
    identifier :=
      (let i := (eattr e "id").getD ""
       if i ≠ "" then i else (eattr e "name").getD "")
    value := (eattr e "value").getD ""
    placeholder := (eattr e "placeholder").getD ""
    required := (eattr e "required").isSome
    disabled := (eattr e "disabled").isSome
    readonly := (eattr e "readonly").isSome
    label := fsFindFieldLabel e
    options :=
      if e.tag = "select" then
        e.optionEls.map (fun o =>
          { value :=
              (let v := (dictGet o.attrs "value").getD ""
               if v ≠ "" then v else o.text)
            text := o.text
            selected := (dictGet o.attrs "selected").isSome })
      else []
    validationRules := fsValidationRules e
    maxlength := ""
    pattern := "" }

/-- `form_scraper._extract_field_details_from_element`: one mixed loop over
input/textarea/select elements, filtering all five non-input subtypes. -/
def formScraperExtractFields (elements : List Element) : List FieldDesc :=
  accumFields fsField
    (fun e => htmlSkipTypes.contains (pyLower (eattrOr e "type" "text"))) elements []

/-! ## Lightweight HTML parsing (`bulletproof_scraper._parse_fields_from_html`) -/

/-- The suffix starting at the first case-insensitive occurrence of
`needle`. -/
def findCI (needle : List Char) : List Char → Option (List Char)
  | [] => if isPrefixCI needle [] then some [] else none
  | l@(_ :: t) => if isPrefixCI needle l then some l else findCI needle t

/-- Split at the first case-insensitive occurrence of `needle`:
text before, the occurrence in original case, text after. -/
def splitAtCI (needle : List Char) :
    List Char → Option (List Char × List Char × List Char)
  | [] => if isPrefixCI needle [] then some ([], [], []) else none
  | l@(c :: t) =>
    if isPrefixCI needle l then some ([], l.take needle.length, l.drop needle.length)
    else
      match splitAtCI needle t with
      | some (b, m, a) => some (c :: b, m, a)
      | none => none

/-- All matches of `re.finditer(r'<input[^>]*>', ..., re.IGNORECASE)`:
each `<input` start extended to the next `>`. -/
def collectInputTags (l : List Char) : List (List Char) := go l.length l
where
  go : Nat → List Char → List (List Char)
    | 0, _ => []
    | fuel + 1, l =>
      match findCI "<input".toList l with
      | none => []
      | some suff =>
        match takeUntilChar '>' (suff.drop 6) with
        | none => []
        | some (body, rem) => (suff.take 6 ++ body ++ ['>']) :: go fuel rem

/-- All matches of `re.finditer(r'<textarea[^>]*>.*?</textarea>', ...,
re.IGNORECASE | re.DOTALL)`. -/
def collectTextareaTags (l : List Char) : List (List Char) := go l.length l
where
  go : Nat → List Char → List (List Char)
    | 0, _ => []
    | fuel + 1, l =>
      match findCI "<textarea".toList l with
      | none => []
      | some suff =>
        match takeUntilChar '>' (suff.drop 9) with
        | none => []
        | some (body, rem) =>
          match splitAtCI "</textarea>".toList rem with
          | none => []
          | some (mid, m, rem2) =>
            (suff.take 9 ++ body ++ ['>'] ++ mid ++ m) :: go fuel rem2

/-- `attr=["']([^"']*)["']` matched at the head of `l`: the captured
value. -/
def matchAttrAt (a : List Char) (l : List Char) : Option (List Char) :=
  if isPrefixCI (a ++ ['=']) l then
    match l.drop (a.length + 1) with
    | q :: r =>
      if q = '"' ∨ q = squote then
        let v := r.takeWhile (fun c => c ≠ '"' ∧ c ≠ squote)
        if r.drop v.length ≠ [] then some v else none
      else none
    | [] => none
  else none

/-- `re.search(attr + '=["\']([^"\']*)["\']', tag, re.IGNORECASE)`. -/
def attrValue (a : String) (tag : List Char) : Option String := go tag
where
  go : List Char → Option String
    | [] => none
    | l@(_ :: t) =>
      match matchAttrAt a.toList l with
      | some v => some (String.mk v)
      | none => go t

/-- The subtype computed for one raw input tag (`attrs['type'] or 'text'`). -/
def inputTagType (tg : List Char) : String :=
  let t0 := (attrValue "type" tg).getD ""
  if t0 = "" then "text" else t0

/-- Input-field dictionary of `_parse_fields_from_html`. -/
def parseInputField (tg : List Char) (n : Nat) : FieldDesc :=
  let fieldName := (attrValue "name" tg).getD ""
  let fieldId := (attrValue "id" tg).getD ""
  { tag := "input"
    type := inputTagType tg
    name := fieldName
    id := fieldId
    identifier :=
      (if fieldId ≠ "" then fieldId
       else if fieldName ≠ "" then fieldName
       else "field_" ++ toString n)
    placeholder := (attrValue "placeholder" tg).getD ""
    required := inStr "required" (pyLower (String.mk tg))
    label := generateLabelFromName (if fieldName ≠ "" then fieldName else fieldId)
    value := (attrValue "value" tg).getD ""
    maxlength := (attrValue "maxlength" tg).getD ""
    pattern := (attrValue "pattern" tg).getD "" }

/-- Textarea-field dictionary of `_parse_fields_from_html`. -/
def parseTextareaField (tg : List Char) (n : Nat) : FieldDesc :=
  let fieldName := (attrValue "name" tg).getD ""
  let fieldId := (attrValue "id" tg).getD ""
  { tag := "textarea"
    type := "textarea"
    name := fieldName
    id := fieldId
    identifier :=
      (if fieldId ≠ "" then fieldId
       else if fieldName ≠ "" then fieldName
       else "textarea_" ++ toString n)
    placeholder := (attrValue "placeholder" tg).getD ""
    required := inStr "required" (pyLower (String.mk tg))
    label := generateLabelFromName (if fieldName ≠ "" then fieldName else fieldId)
    value := ""
    maxlength := ""
    pattern := "" }

/-- `_parse_fields_from_html`: the input loop (filtering the five subtypes)
followed by the textarea loop, sharing one growing list. -/
def parseFieldsFromHtml (formHtml : String) : List FieldDesc :=
  let inputFields := accumFields parseInputField
    (fun tg => htmlSkipTypes.contains (pyLower (inputTagType tg)))
    (collectInputTags formHtml.toList) []
  accumFields parseTextareaField (fun _ => false)
    (collectTextareaTags formHtml.toList) inputFields

/-! ## Accessibility probe (`test_url_accessibility_enhanced`) -/

/-- `_safe_detect_barriers`. -/
def detectBarriers (content : String) (statusCode : Nat) : List String :=
  if content = "" then ["no_content"]
  else
    let cl := pyLower content
    let checks : List (Bool × String) :=
      [(400 ≤ statusCode, "http_error_" ++ toString statusCode),
       (["captcha", "recaptcha", "hcaptcha"].any (fun w => inStr w cl),
         "captcha_detected"),
       (inStr "cloudflare" cl && inStr "checking" cl, "cloudflare_challenge"),
       ((["login", "signin"].any (fun w => inStr w cl)) && inStr "password" cl,
         "login_required"),
       (inStr "access denied" cl || inStr "forbidden" cl, "access_denied")]
    (checks.filter (·.1)).map (·.2)

/-- `_safe_count_forms`: the number of non-overlapping
`<form[^>]*>.*?</form>` matches. -/
def countForms (content : String) : Nat :=
  if content = "" then 0 else go content.toList.length content.toList
where
  go : Nat → List Char → Nat
    | 0, _ => 0
    | fuel + 1, l =>
      match findCI "<form".toList l with
      | none => 0
      | some suff =>
        match takeUntilChar '>' (suff.drop 5) with
        | none => 0
        | some (_, rem) =>
          match splitAtCI "</form>".toList rem with
          | none => 0
          | some (_, _, rem2) => 1 + go fuel rem2

/-- A fetched page: its content and the URL it settled on. -/
structure FetchedPage where
  content : String
  finalUrl : String

/-- Result dictionary of `test_url_accessibility_enhanced`.  The float
probabilities are represented as exact rationals. -/
structure AccessResult where
  accessible : Bool
  statusCode : Nat
  methodUsed : String
  barriers : List String
  successProbability : ℚ
  recommendations : List String
  formsFound : Nat
  finalUrl : String
  warnings : List String := []
  deriving Repr, DecidableEq

/-- `test_url_accessibility_enhanced`: session strategy first, browser
escalation when the session failed or found barriers; each strategy outcome
is an explicit parameter and an exception becomes a structured update. -/
def testUrlAccessibilityEnhanced (url : String)
    (session : LowerResult FetchedPage) (browser : LowerResult FetchedPage) :
    AccessResult :=
  let base : AccessResult :=
    { accessible := true, statusCode := 200, methodUsed := "unknown",
      barriers := [], successProbability := 1/2,
      recommendations := ["Basic connectivity check"], formsFound := 0,
      finalUrl := url }
  let step1 : AccessResult × Bool :=
    match session with
    | .ok p =>
      let barriers := detectBarriers p.content 200
      let forms := countForms p.content
      ({ base with
          methodUsed := "http_session"
          barriers := barriers
          formsFound := forms
          finalUrl := p.finalUrl
          successProbability := if barriers.isEmpty then 9/10 else 6/10
          recommendations := "Session method successful" ::
            (if 0 < forms then ["Found " ++ toString forms ++ " forms"]
             else ["No forms detected"]) }, true)
    | .exn e =>
      ({ base with warnings := ["Session method failed: " ++ truncate 100 e] }, false)
  let r1 := step1.1
  if ¬ step1.2 ∨ r1.barriers ≠ [] then
    match browser with
    | .ok p =>
      let barriers := detectBarriers p.content 200
      let forms := countForms p.content
      { r1 with
          methodUsed := "browser_automation"
          finalUrl := p.finalUrl
          barriers := barriers
          formsFound := forms
          successProbability := if barriers.isEmpty then 8/10 else 4/10
          recommendations := "Browser method used" ::
            (if 0 < forms then ["Found " ++ toString forms ++ " forms"]
             else ["No forms detected - may need JavaScript"]) }
    | .exn e =>
      { r1 with
          methodUsed := "fallback"
          barriers := ["browser_failed"]
          successProbability := 2/10
          recommendations := ["Both methods failed. Error: " ++ truncate 100 e] }
  else r1

/-! ## Field extraction entry point (`extract_form_fields_enhanced`) -/

/-- What the extractor reads from `analyze_page_comprehensive_enhanced`. -/
structure AnalysisSummary where
  success : Bool
  methodUsed : String
  formsCount : Nat
  deriving Repr, DecidableEq

/-- `extract_form_fields_enhanced`: accessibility gate, form-count and
index checks, then the chosen per-strategy extractor; every exception arm
returns a flagged dictionary with a truncated message. -/
def extractFormFieldsEnhanced (url : String) (formIndex : Nat)
    (analysisOutcome : LowerResult AnalysisSummary)
    (fieldsOutcome : LowerResult (String × List FieldDesc)) : FormExtractResult :=
  match analysisOutcome with
  | .exn e =>
    { success := false
      error := some ("Extraction system error: " ++ truncate 200 e)
      methodUsed := "error", fields := [], formAction := url,
      formMethod := "POST", formIndex := formIndex }
  | .ok a =>
    let base : FormExtractResult :=
      { success := false, methodUsed := "unknown", fields := [],
        formAction := url, formMethod := "POST", formIndex := formIndex,
        error := none }
    if ¬ a.success then
      { base with error := some "Page not accessible or analysis failed" }
    else if a.formsCount = 0 then
      { base with error := some "No forms found on page" }
    else if a.formsCount ≤ formIndex then
      { base with error := some ("Form index " ++ toString formIndex ++
          " not found. Page has " ++ toString a.formsCount ++ " forms.") }
    else
      match fieldsOutcome with
      | .exn e =>
        { base with error := some ("Field extraction failed: " ++ truncate 200 e) }
      | .ok mf =>
        { base with success := true, methodUsed := mf.1, fields := mf.2 }

/-- `pickMinBy` never returns an element with a larger key than the seed. -/
theorem pickMinBy_le_seed (f : α → Nat) (b : α) (l : List α) :
    f (pickMinBy f b l) ≤ f b := by
  induction l generalizing b with
  | nil => exact le_refl _
  | cons x xs ih =>
    simp only [pickMinBy]
    refine le_trans (ih _) ?_
    split
    · omega
    · exact le_refl _

/-- `pickMinBy` returns an element with a key at most every member's key. -/
theorem pickMinBy_le_mem (f : α → Nat) (b : α) (l : List α) :
    ∀ x ∈ l, f (pickMinBy f b l) ≤ f x := by
  induction l generalizing b with
  | nil => intro x hx; simp at hx
  | cons y ys ih =>
    intro x hx
    rcases List.mem_cons.mp hx with h | h
    · subst h
      simp only [pickMinBy]
      refine le_trans (pickMinBy_le_seed f _ ys) ?_
      split
      · exact le_refl _
      · omega
    · exact ih _ x h

/-- C1: the Outcome Classifier starts at 0, adds +50 for at least one success
indicator, +30 for a changed URL and +20 for no error indicators, and judges
success exactly when the score is ≥ 50 and the error list is empty; the
"thank you" page with a changed URL and no error phrases scores ≥ 80 and is
successful, while "thank you" next to an "error" phrase on an unchanged URL
is classified failed. -/
theorem C1_outcome_scoring :
    (∀ content curl ourl,
      (processResponse content curl ourl).successScore =
        (if (processResponse content curl ourl).successIndicators = [] then 0 else 50) +
        (if curl = ourl then 0 else 30) +
        (if (processResponse content curl ourl).errorIndicators = [] then 20 else 0) ∧
      ((processResponse content curl ourl).success = true ↔
        (50 ≤ (processResponse content curl ourl).successScore ∧
          (processResponse content curl ourl).errorIndicators = []))) ∧
    (80 ≤ (processResponse "<p>thank you</p>" "http://site.example/thanks"
        "http://site.example/form").successScore ∧
      (processResponse "<p>thank you</p>" "http://site.example/thanks"
        "http://site.example/form").success = true) ∧
    (processResponse "<p>thank you</p><p>error: submission failed</p>"
        "http://site.example/form" "http://site.example/form").success = false := by
  refine ⟨fun content curl ourl => ?_, by decide, by decide⟩
  cases h1 : detectSuccessIndicators content curl ourl <;>
    cases h2 : detectErrorIndicators content <;>
      by_cases h3 : curl = ourl <;>
        simp [processResponse, h1, h2, h3]

/-- C2 counterexample: a success-phrase match alone (unchanged URL, no error
indicators) is already classified successful (score 70), so a single signal
is sufficient, contradicting the claim that the classifier reports failure
whenever only one of the two signals is present. -/
theorem C2_single_signal_counterexample :
    (processResponse "thank you" "http://site.example/form"
        "http://site.example/form").urlChanged = false ∧
    (processResponse "thank you" "http://site.example/form"
        "http://site.example/form").successIndicators = ["text_thank_you"] ∧
    (processResponse "thank you" "http://site.example/form"
        "http://site.example/form").errorIndicators = [] ∧
    (processResponse "thank you" "http://site.example/form"
        "http://site.example/form").successScore = 70 ∧
    (processResponse "thank you" "http://site.example/form"
        "http://site.example/form").success = true := by
  decide

/-- C2 amended: corroboration of both signals is not required.  When no error
indicator is detected, the submission is judged successful as soon as a
single signal is present: a success indicator alone, or a URL change alone
(which itself contributes a success indicator and, even with an empty final
URL, still reaches the 50-point threshold). -/
theorem C2_amended_single_signal_suffices (content curl ourl : String)
    (hne : (processResponse content curl ourl).errorIndicators = []) :
    (processResponse content curl ourl).success = true ↔
      ((processResponse content curl ourl).successIndicators ≠ [] ∨ curl ≠ ourl) := by
  cases h1 : detectSuccessIndicators content curl ourl <;>
    by_cases h3 : curl = ourl <;>
      simp_all [processResponse, h1, h3]

/-- Witness for the amended C2 at a concrete input: a phrase match alone,
with no error indicators, yields a success verdict. -/
theorem C2_amended_witness :
    (processResponse "thank you" "http://a.example/f" "http://a.example/f").errorIndicators
        = [] ∧
    ((processResponse "thank you" "http://a.example/f" "http://a.example/f").success = true ↔
      ((processResponse "thank you" "http://a.example/f"
          "http://a.example/f").successIndicators ≠ [] ∨
        ("http://a.example/f" : String) ≠ "http://a.example/f")) :=
  ⟨by decide, C2_amended_single_signal_suffices "thank you" "http://a.example/f"
    "http://a.example/f" (by decide)⟩

/-- C5 counterexample: the claim quantifies over every candidate set
containing the keys in question, but on the candidate set
`["phon", "phone", "telephone"]` the matcher resolves `"phon"` to the
exact-match candidate `"phon"`, not to `"phone"`. -/
theorem C5_fuzzy_counterexample :
    ("phone" ∈ (["phon", "phone", "telephone"] : List String)) ∧
    ("telephone" ∈ (["phon", "phone", "telephone"] : List String)) ∧
    findFuzzyMatch "phon" ["phon", "phone", "telephone"] = some "phon" ∧
    findFuzzyMatch "phon" ["phon", "phone", "telephone"] ≠ some "phone" := by
  decide

/-- C5 amended: on the candidate set consisting of the keys in question,
`"phon"` matches `"phone"` (in either order), and for every candidate set
containing `"phone"` the matcher never resolves `"phon"` to `"telephone"`
(the match fires at the substring stage, which precedes edit distance);
the edit distances and thresholds are as claimed, and the edit-distance
stage considers only candidates longer than 2 characters, accepts only
distances within a third of the longer length, and picks a smallest
distance, being reached exactly when the earlier stages produce nothing. -/
theorem C5_fuzzy_matching_amended :
    (findFuzzyMatch "phon" ["phone", "telephone"] = some "phone") ∧
    (findFuzzyMatch "phon" ["telephone", "phone"] = some "phone") ∧
    (∀ cs : List String, "phone" ∈ cs →
      findFuzzyMatch "phon" cs ≠ some "telephone") ∧
    (simpleEditDistance "phon" "phone" = 1 ∧
      max (String.length "phone") (String.length "phon") / 3 = 1) ∧
    (simpleEditDistance "phon" "telephone" = 5 ∧
      max (String.length "telephone") (String.length "phon") / 3 = 3) ∧
    (∀ t : String, ∀ cs : List String, ∀ c : String, ∀ d : Nat,
      (c, d) ∈ fuzzyCloseMatches t cs →
        2 < c.length ∧ d = simpleEditDistance (pyLower t) (pyLower c) ∧
          d ≤ max t.length c.length / 3) ∧
    (∀ t : String, ∀ cs : List String, ∀ cd : String × Nat,
      ∀ cds : List (String × Nat), ∀ x : String × Nat,
      fuzzyCloseMatches t cs = cd :: cds → x ∈ cd :: cds →
        (pickMinBy Prod.snd cd cds).2 ≤ x.2) ∧
    (∀ t : String, ∀ cs : List String, ∀ cd : String × Nat,
      ∀ cds : List (String × Nat),
      t ≠ "" → cs ≠ [] →
      fuzzyExactStage (pyLower t) cs = none →
      fuzzySubstringMatches (pyLower t) cs = [] →
      fuzzyCloseMatches t cs = cd :: cds →
        findFuzzyMatch t cs = some (pickMinBy Prod.snd cd cds).1) := by
  refine ⟨by decide, by decide, ?_, by decide, by decide, ?_, ?_, ?_⟩
  · intro cs hmem
    have hichk : "phone" ∈ fuzzySubstringMatches (pyLower "phon") cs := by
      apply List.mem_filter.mpr
      exact ⟨hmem, by decide⟩
    unfold findFuzzyMatch
    have hne : ¬(("phon" : String) = "" ∨ cs = []) := by
      rintro (h | h)
      · exact absurd h (by decide)
      · subst h; simp at hmem
    rw [if_neg hne]
    rcases he : fuzzyExactStage (pyLower "phon") cs with _ | c
    · rcases hs : fuzzySubstringMatches (pyLower "phon") cs with _ | ⟨m, ms⟩
      · rw [hs] at hichk; simp at hichk
      · simp only [he, hs]
        intro hcontra
        have hx := Option.some.inj hcontra
        have hlen : (pickMinBy String.length m ms).length ≤ ("phone" : String).length := by
          rw [hs] at hichk
          rcases List.mem_cons.mp hichk with h | h
          · rw [← h]; exact pickMinBy_le_seed _ _ _
          · exact pickMinBy_le_mem _ _ _ _ h
        rw [hx] at hlen
        revert hlen; decide
    · simp only [he]
      intro hcontra
      have hx := Option.some.inj hcontra
      have hp := List.find?_some he
      rw [hx] at hp
      revert hp; decide
  · intro t cs c d hmem
    rcases List.mem_filter.mp hmem with ⟨hfm, hthr⟩
    rcases List.mem_filterMap.mp hfm with ⟨a, _, hfa⟩
    by_cases hc : a ≠ "" ∧ 2 < a.length
    · rw [if_pos hc] at hfa
      have h1 : a = c ∧ simpleEditDistance (pyLower t) (pyLower a) = d := by
        have := Option.some.inj hfa
        exact ⟨congrArg Prod.fst this, congrArg Prod.snd this⟩
      rcases h1 with ⟨rfl, rfl⟩
      exact ⟨hc.2, rfl, by simpa using hthr⟩
    · rw [if_neg hc] at hfa; cases hfa
  · intro t cs cd cds x _ hx
    rcases List.mem_cons.mp hx with h | h
    · rw [h]; exact pickMinBy_le_seed _ _ _
    · exact pickMinBy_le_mem _ _ _ _ h
  · intro t cs cd cds ht hcs he hs hc
    unfold findFuzzyMatch
    rw [if_neg (by rintro (h | h) <;> [exact ht h; exact hcs h])]
    simp only [he, hs, hc]

/-- C5 witness: the never-matches-telephone conjunct of the amended claim,
applied at the concrete candidate set of the specification. -/
theorem C5_fuzzy_matching_amended_witness :
    findFuzzyMatch "phon" ["phone", "telephone"] ≠ some "telephone" :=
  C5_fuzzy_matching_amended.2.2.1 ["phone", "telephone"] (by decide)

/-- C6 counterexample: with supplied data `{"email": v}` and the form field
keyed `"user_email"`, the per-field matcher binds the supplied email value
to the `"user_email"` field as well (the substring stage matches
[email in user_email]), so the value is not reserved to the field keyed
`"email"`. -/
theorem C6_exact_match_counterexample :
    findFieldValueMultipleStrategies [("email", "user@site.example")]
      "user_email" "user_email" "" "" = some "user@site.example" := by
  decide

/-- C6 amended: resolution is per field and stops at the first hit for that
field: the field keyed `"email"` receives the supplied `"email"` value at
the exact-equality stage (whatever else the data map holds), but the field
keyed `"user_email"` also receives the same value, via the bidirectional
substring stage, so the binding is not exclusive. -/
theorem C6_exact_match_amended :
    (∀ d : List (String × String), ∀ v ph : String,
      dictGet d "email" = some v →
        findFieldValueMultipleStrategies d "email" "email" "email" ph = some v) ∧
    (∀ v : String,
      findFieldValueMultipleStrategies [("email", v)] "user_email" "user_email" "" ""
        = some v) := by
  constructor
  · intro d v ph h
    unfold findFieldValueMultipleStrategies
    simp [List.findSome?, h]
  · intro v
    rfl

/-- C6 witness: the amended exact-match conjunct applied to a concrete data
map containing the key `"email"`. -/
theorem C6_exact_match_amended_witness :
    findFieldValueMultipleStrategies [("email", "a@b.example")]
      "email" "email" "email" "" = some "a@b.example" :=
  C6_exact_match_amended.1 [("email", "a@b.example")] "a@b.example" "" (by decide)

/-- Every delay appended by one loop iteration is capped at 10 seconds. -/
theorem submitLoopStep_delays (f : Nat → AttemptOutcome) (clock : Nat → Nat)
    (url : String) (fd : List (String × String)) (mr : Nat) (st : LoopSt) (a : Nat) :
    ∀ d ∈ (submitLoopStep f clock url fd mr st a).delays, d ∈ st.delays ∨ d ≤ 10 := by
  intro d hd
  unfold submitLoopStep at hd
  split at hd
  · exact .inl hd
  · split at hd
    · split at hd
      · exact .inl hd
      · dsimp only at hd
        split at hd
        · rcases List.mem_append.mp hd with h1 | h1
          · exact .inl h1
          · simp only [List.mem_singleton] at h1
            exact .inr (h1 ▸ min_le_right _ _)
        · exact .inl hd
    · dsimp only at hd
      split at hd
      · rcases List.mem_append.mp hd with h1 | h1
        · exact .inl h1
        · simp only [List.mem_singleton] at h1
          exact .inr (by omega)
      · exact .inl hd

/-- Every delay slept by the whole retry loop is capped at 10 seconds. -/
theorem submitLoop_delays_le_ten (f : Nat → AttemptOutcome) (clock : Nat → Nat)
    (url : String) (fd : List (String × String)) (mr : Nat)
    (hist0 : List AttemptRecord) :
    ∀ d ∈ (submitLoop f clock url fd mr hist0).delays, d ≤ 10 := by
  have key : ∀ (l : List Nat) (st : LoopSt), (∀ d ∈ st.delays, d ≤ 10) →
      ∀ d ∈ (l.foldl (submitLoopStep f clock url fd mr) st).delays, d ≤ 10 := by
    intro l
    induction l with
    | nil => intro st h d hd; exact h d hd
    | cons a t ih =>
      intro st h d hd
      refine ih _ ?_ d hd
      intro e he
      rcases submitLoopStep_delays f clock url fd mr st a e he with h1 | h1
      · exact h e h1
      · exact h1
  intro d hd
  exact key _ _ (by intro e he; simp at he) d hd

/-- C7: under a 3-retry ceiling with every attempt returning a structured
failure, the loop records exactly the attempt ordinals 1, 2, 3 in order,
sleeps `min((n+1)*2, 10)` after the n-th failure — concretely 2 s then
4 s, with no delay after the final attempt — and each delay the loop can
ever sleep is at most 10 s. -/
theorem C7_retry_and_backoff :
    (∀ (f : Nat → AttemptOutcome) (clock : Nat → Nat) (url : String)
        (fd : List (String × String)),
      (∀ n, n < 3 → ∃ r, f n = AttemptOutcome.res r ∧ r.success = false) →
        (submitLoop f clock url fd 3 []).history.map AttemptRecord.attempt = [1, 2, 3] ∧
        (submitLoop f clock url fd 3 []).delays =
          [min ((0 + 1) * 2) 10, min ((1 + 1) * 2) 10] ∧
        (submitLoop f clock url fd 3 []).delays = [2, 4] ∧
        (submitLoop f clock url fd 3 []).finalResult = none ∧
        (submitLoop f clock url fd 3 []).attempts = 3) ∧
    (∀ (f : Nat → AttemptOutcome) (clock : Nat → Nat) (url : String)
        (fd : List (String × String)) (mr : Nat) (hist0 : List AttemptRecord),
      ∀ d ∈ (submitLoop f clock url fd mr hist0).delays, d ≤ 10) := by
  constructor
  · intro f clock url fd h
    obtain ⟨r0, hf0, hs0⟩ := h 0 (by omega)
    obtain ⟨r1, hf1, hs1⟩ := h 1 (by omega)
    obtain ⟨r2, hf2, hs2⟩ := h 2 (by omega)
    have hrange : List.range 3 = [0, 1, 2] := rfl
    unfold submitLoop
    rw [hrange]
    simp [submitLoopStep, hf0, hf1, hf2, hs0, hs1, hs2,
      recordAttempt, mkAttemptRecord, maxHistoryLen]
  · exact fun f clock url fd mr hist0 => submitLoop_delays_le_ten f clock url fd mr hist0

/-- C7 witness: the retry scenario at a concrete always-failing attempt
function: three records with ordinals 1, 2, 3 and delays 2 s then 4 s. -/
theorem C7_retry_and_backoff_witness :
    (submitLoop (fun _ => AttemptOutcome.res { success := false }) (fun n => n)
        "http://u.example" [] 3 []).history.map AttemptRecord.attempt = [1, 2, 3] ∧
    (submitLoop (fun _ => AttemptOutcome.res { success := false }) (fun n => n)
        "http://u.example" [] 3 []).delays = [2, 4] := by
  have h := C7_retry_and_backoff.1 (fun _ => AttemptOutcome.res { success := false })
    (fun n => n) "http://u.example" [] (fun n _ => ⟨_, rfl, rfl⟩)
  exact ⟨h.1, h.2.2.1⟩

/-- C9: the history cap is the fixed value 50; after any recording the
history holds at most 50 records; the retained records are a contiguous
suffix of the appended history (chronological order preserved); and when
the history is full, recording evicts exactly the oldest record, keeping
precisely the most recent 50. -/
theorem C9_history_ring :
    (maxHistoryLen = 50) ∧
    (∀ (hist : List AttemptRecord) (r : AttemptRecord),
      (recordAttempt hist r).length ≤ 50) ∧
    (∀ (hist : List AttemptRecord) (r : AttemptRecord),
      recordAttempt hist r <:+ hist ++ [r]) ∧
    (∀ (hist : List AttemptRecord) (r : AttemptRecord), hist.length = 50 →
      recordAttempt hist r = hist.drop 1 ++ [r] ∧
        (recordAttempt hist r).length = 50) := by
  refine ⟨rfl, ?_, ?_, ?_⟩
  · intro hist r
    unfold recordAttempt maxHistoryLen
    dsimp only
    split
    · simp only [List.length_drop, List.length_append, List.length_singleton] at *
      omega
    · simp only [List.length_append, List.length_singleton] at *
      omega
  · intro hist r
    unfold recordAttempt maxHistoryLen
    dsimp only
    split
    · exact List.drop_suffix _ _
    · exact List.suffix_refl _
  · intro hist r h50
    unfold recordAttempt maxHistoryLen
    dsimp only
    rw [if_pos (by simp [h50])]
    constructor
    · rw [List.drop_append_eq_append_drop]
      simp [h50]
    · simp [h50]

/-- C9 witness: recording into a full 50-record history evicts exactly the
oldest record. -/
theorem C9_history_ring_witness :
    (List.replicate 50 (mkAttemptRecord 0 "http://u.example" []
        { success := false } 1)).length = 50 ∧
    recordAttempt
        (List.replicate 50 (mkAttemptRecord 0 "http://u.example" []
          { success := false } 1))
        (mkAttemptRecord 1 "http://u.example" [] { success := true } 2) =
      (List.replicate 50 (mkAttemptRecord 0 "http://u.example" []
        { success := false } 1)).drop 1 ++
        [mkAttemptRecord 1 "http://u.example" [] { success := true } 2] := by
  refine ⟨by simp, ?_⟩
  exact (C9_history_ring.2.2.2 _ _ (by simp)).1

/-- C10: with an empty field-data map, `validate` returns `valid = false`
with exactly the issue `No field data provided or invalid format`, and
`submit` returns `success = false` with the invalid-input error; both
results are independent of every lower-layer outcome (no fetch is
consulted) and the attempt history is returned unchanged. -/
theorem C10_empty_field_data :
    (∀ (rx : String → String → Option Bool) (url : String)
        (out : LowerResult FormExtractResult), url ≠ "" →
      validateSubmissionEnhanced rx url [] out =
        { valid := false, issues := ["No field data provided or invalid format"],
          warnings := [], suggestions := [], fieldsChecked := 0, dataProvided := 0,
          methodUsed := "input_validation" }) ∧
    (∀ (url : String) (mr : Nat) (v : LowerResult ValidateResult)
        (f : Nat → AttemptOutcome) (clock : Nat → Nat) (elapsed : Nat)
        (hist0 : List AttemptRecord),
      submitFormEnhanced url [] mr v f clock elapsed hist0 =
        ({ success := false, message := "Submission failed due to invalid input",
           methodUsed := "unknown", attempts := 0,
           error := some "Invalid input: URL and field_data are required",
           submissionTime := 0, validation := none }, hist0)) := by
  constructor
  · intro rx url out hurl
    unfold validateSubmissionEnhanced
    rw [if_neg hurl, if_pos rfl]
  · intro url mr v f clock elapsed hist0
    unfold submitFormEnhanced
    rw [if_pos (Or.inr rfl)]

/-- C10 witness: the validate conjunct at a concrete non-empty URL and a
concrete lower-layer outcome. -/
theorem C10_empty_field_data_witness :
    validateSubmissionEnhanced (fun _ _ => none) "http://w.example" []
        (.exn "boom") =
      { valid := false, issues := ["No field data provided or invalid format"],
        warnings := [], suggestions := [], fieldsChecked := 0, dataProvided := 0,
        methodUsed := "input_validation" } :=
  C10_empty_field_data.1 (fun _ _ => none) "http://w.example" (.exn "boom") (by decide)

/-- Membership in an accumulated field list comes from the seed or from a
non-skipped item. -/
theorem accumFields_mem (g : α → Nat → FieldDesc) (skip : α → Bool) :
    ∀ (l : List α) (acc0 : List FieldDesc) (f : FieldDesc),
      f ∈ accumFields g skip l acc0 →
        f ∈ acc0 ∨ ∃ x n, x ∈ l ∧ skip x = false ∧ f = g x n := by
  intro l
  induction l with
  | nil => intro acc0 f h; exact .inl (by simpa [accumFields] using h)
  | cons a t ih =>
    intro acc0 f h
    have h2 := ih (if skip a then acc0 else acc0 ++ [g a acc0.length]) f
      (by simpa [accumFields, List.foldl_cons] using h)
    rcases h2 with h2 | ⟨x, n, hx, hs, hf⟩
    · by_cases hsk : skip a
      · rw [if_pos hsk] at h2
        exact .inl h2
      · rw [if_neg hsk] at h2
        rcases List.mem_append.mp h2 with h3 | h3
        · exact .inl h3
        · simp only [List.mem_singleton] at h3
          exact .inr ⟨a, acc0.length, List.mem_cons_self a t,
            Bool.of_not_eq_true hsk, h3⟩
    · exact .inr ⟨x, n, List.mem_cons_of_mem _ hx, hs, hf⟩

/-- Truncation really bounds the length. -/
theorem truncate_length_le (n : Nat) (s : String) : (truncate n s).length ≤ n := by
  have h : (truncate n s).length = (s.toList.take n).length := rfl
  rw [h]
  exact List.length_take_le n s.toList

/-- A string with a non-empty prefix is non-empty. -/
theorem str_append_ne_empty (p s : String) (hp : p.length ≠ 0) : p ++ s ≠ "" := by
  intro h
  have hlen := congrArg String.length h
  rw [String.length_append] at hlen
  simp at hlen
  omega

/-- C3 counterexample: the interactive-browser extraction path filters only
hidden/submit/button, so an `input type="image"` element appears in the
returned field list, contradicting the claimed five-subtype exclusion on
both paths. -/
theorem C3_subtype_exclusion_counterexample :
    (extractFieldsWithBrowser
        [{ tag := "input", attrs := [("type", "image"), ("name", "go")] }] [] []).map
      FieldDesc.type = ["image"] ∧
    "image" ∈ htmlSkipTypes := by
  decide

/-- C3 amended: the lightweight HTML-parsing path never returns a field
whose subtype is hidden, submit, button, image or reset; the
interactive-browser path excludes only hidden, submit and button, and a
type `image` input does surface there. -/
theorem C3_subtype_exclusion_amended :
    (∀ (html : String) (f : FieldDesc), f ∈ parseFieldsFromHtml html →
      pyLower f.type ∉ htmlSkipTypes) ∧
    (∀ (inputs textareas selects : List Element) (f : FieldDesc),
      f ∈ extractFieldsWithBrowser inputs textareas selects →
      pyLower f.type ∉ browserSkipTypes) ∧
    (extractFieldsWithBrowser
        [{ tag := "input", attrs := [("type", "image"), ("name", "go")] }] [] []).map
      FieldDesc.type = ["image"] := by
  refine ⟨?_, ?_, by decide⟩
  · intro html f h
    unfold parseFieldsFromHtml at h
    rcases accumFields_mem _ _ _ _ _ h with h1 | ⟨x, n, _, _, hf⟩
    · rcases accumFields_mem _ _ _ _ _ h1 with h2 | ⟨x, n, _, hs, hf⟩
      · simp at h2
      · subst hf
        intro hmem
        have : htmlSkipTypes.contains (pyLower (inputTagType x)) = true := by
          exact List.elem_eq_true_of_mem hmem
        rw [hs] at this
        cases this
    · subst hf
      show pyLower "textarea" ∉ htmlSkipTypes
      decide
  · intro inputs textareas selects f h
    unfold extractFieldsWithBrowser at h
    rcases accumFields_mem _ _ _ _ _ h with h1 | ⟨x, n, _, _, hf⟩
    · rcases accumFields_mem _ _ _ _ _ h1 with h2 | ⟨x, n, _, _, hf⟩
      · rcases accumFields_mem _ _ _ _ _ h2 with h3 | ⟨x, n, _, hs, hf⟩
        · simp at h3
        · subst hf
          intro hmem
          have : browserSkipTypes.contains (pyLower (eattrOr x "type" "text")) = true :=
            List.elem_eq_true_of_mem hmem
          rw [hs] at this
          cases this
      · subst hf
        show pyLower "textarea" ∉ browserSkipTypes
        decide
    · subst hf
      show pyLower "select" ∉ browserSkipTypes
      decide

/-- C3 witness: the HTML-path exclusion applied at a concrete form snippet,
and the browser-path exclusion at a concrete element list. -/
theorem C3_subtype_exclusion_amended_witness :
    pyLower (parseInputField "<input type=\"text\" name=\"a\">".toList 0).type ∉
      htmlSkipTypes :=
  C3_subtype_exclusion_amended.1 "<input type=\"text\" name=\"a\">" _ (by decide)

/-- C4 counterexample: `form_scraper`'s extractor derives the identifier as
id, else name, else the empty string, so an input with neither id nor name
yields an empty identifier. -/
theorem C4_identifier_counterexample :
    (formScraperExtractFields [{ tag := "input", attrs := [("type", "text")] }]).map
      FieldDesc.identifier = [""] ∧
    ¬ (∀ f ∈ formScraperExtractFields [{ tag := "input", attrs := [("type", "text")] }],
        f.identifier ≠ "") := by
  decide

/-- C4 amended: both `bulletproof_scraper` extraction paths always produce
non-empty identifiers (id, else name, else a positional fallback), but
`form_scraper._extract_field_details_from_element` falls back to the empty
string when both id and name are absent. -/
theorem C4_identifier_amended :
    (∀ (html : String) (f : FieldDesc), f ∈ parseFieldsFromHtml html →
      f.identifier ≠ "") ∧
    (∀ (inputs textareas selects : List Element) (f : FieldDesc),
      f ∈ extractFieldsWithBrowser inputs textareas selects → f.identifier ≠ "") ∧
    (formScraperExtractFields [{ tag := "input", attrs := [("type", "text")] }]).map
      FieldDesc.identifier = [""] := by
  refine ⟨?_, ?_, by decide⟩
  · intro html f h
    unfold parseFieldsFromHtml at h
    rcases accumFields_mem _ _ _ _ _ h with h1 | ⟨x, n, _, _, hf⟩
    · rcases accumFields_mem _ _ _ _ _ h1 with h2 | ⟨x, n, _, _, hf⟩
      · simp at h2
      · subst hf
        unfold parseInputField
        dsimp only
        split
        · assumption
        · split
          · assumption
          · exact str_append_ne_empty "field_" _ (by decide)
    · subst hf
      unfold parseTextareaField
      dsimp only
      split
      · assumption
      · split
        · assumption
        · exact str_append_ne_empty "textarea_" _ (by decide)
  · intro inputs textareas selects f h
    unfold extractFieldsWithBrowser at h
    rcases accumFields_mem _ _ _ _ _ h with h1 | ⟨x, n, _, _, hf⟩
    · rcases accumFields_mem _ _ _ _ _ h1 with h2 | ⟨x, n, _, _, hf⟩
      · rcases accumFields_mem _ _ _ _ _ h2 with h3 | ⟨x, n, _, _, hf⟩
        · simp at h3
        · subst hf
          unfold browserInputField
          dsimp only
          split
          · assumption
          · split
            · assumption
            · exact str_append_ne_empty "input_" _ (by decide)
      · subst hf
        unfold browserTextareaField
        dsimp only
        split
        · assumption
        · split
          · assumption
          · exact str_append_ne_empty "textarea_" _ (by decide)
    · subst hf
      unfold browserSelectField
      dsimp only
      split
      · assumption
      · split
        · assumption
        · exact str_append_ne_empty "select_" _ (by decide)

/-- C4 witness: the HTML-path non-emptiness applied at a concrete snippet
whose input has neither id nor name (positional fallback). -/
theorem C4_identifier_amended_witness :
    (parseInputField "<input type=\"text\">".toList 0).identifier ≠ "" :=
  C4_identifier_amended.1 "<input type=\"text\">" _ (by decide)

/-- When every retry iteration crashes, the loop never produces a
successful final result. -/
theorem submitLoop_crash_finalResult (msgf : Nat → String) (clock : Nat → Nat)
    (url : String) (fd : List (String × String)) (mr : Nat)
    (hist0 : List AttemptRecord) :
    (submitLoop (fun n => AttemptOutcome.crash (msgf n)) clock url fd mr
      hist0).finalResult = none := by
  have key : ∀ (l : List Nat) (st : LoopSt), st.finalResult = none →
      (l.foldl (submitLoopStep (fun n => AttemptOutcome.crash (msgf n)) clock url fd mr)
        st).finalResult = none := by
    intro l
    induction l with
    | nil => intro st h; exact h
    | cons a t ih =>
      intro st h
      refine ih _ ?_
      simp [submitLoopStep, h]
  exact key _ _ rfl

/-- C8: each public operation is a total function into a structured result:
the probe maps a failure of both fetch strategies to a flagged report with
truncated diagnostics; the extractor maps an analysis exception to
`success = false` with a truncated error; validation maps a scraper
exception to `valid = false` with a truncated issue; and a submission whose
every attempt crashes still returns `success = false` instead of
propagating.  (Lower-layer exceptions are explicit outcome parameters, so
totality of these functions is the non-propagation property.) -/
theorem C8_structured_results :
    (∀ (url e1 e2 : String),
      (testUrlAccessibilityEnhanced url (.exn e1) (.exn e2)).methodUsed = "fallback" ∧
      (testUrlAccessibilityEnhanced url (.exn e1) (.exn e2)).successProbability = 2/10 ∧
      (testUrlAccessibilityEnhanced url (.exn e1) (.exn e2)).warnings =
        ["Session method failed: " ++ truncate 100 e1] ∧
      (testUrlAccessibilityEnhanced url (.exn e1) (.exn e2)).recommendations =
        ["Both methods failed. Error: " ++ truncate 100 e2] ∧
      (∀ w ∈ (testUrlAccessibilityEnhanced url (.exn e1) (.exn e2)).warnings,
        w.length ≤ 123) ∧
      (∀ r ∈ (testUrlAccessibilityEnhanced url (.exn e1) (.exn e2)).recommendations,
        r.length ≤ 128)) ∧
    (∀ (url : String) (fi : Nat) (e : String)
        (fo : LowerResult (String × List FieldDesc)),
      (extractFormFieldsEnhanced url fi (.exn e) fo).success = false ∧
      (extractFormFieldsEnhanced url fi (.exn e) fo).error =
        some ("Extraction system error: " ++ truncate 200 e) ∧
      (∀ msg, (extractFormFieldsEnhanced url fi (.exn e) fo).error = some msg →
        msg.length ≤ 225)) ∧
    (∀ (rx : String → String → Option Bool) (url : String)
        (d : List (String × String)) (e : String), url ≠ "" → d ≠ [] →
      (validateSubmissionEnhanced rx url d (.exn e)).valid = false ∧
      (validateSubmissionEnhanced rx url d (.exn e)).issues =
        ["Validation failed: " ++ truncate 100 e] ∧
      (∀ i ∈ (validateSubmissionEnhanced rx url d (.exn e)).issues,
        i.length ≤ 119)) ∧
    (∀ (url : String) (d : List (String × String)) (mr : Nat)
        (v : LowerResult ValidateResult) (msgf : Nat → String)
        (clock : Nat → Nat) (elapsed : Nat) (hist0 : List AttemptRecord),
      (submitFormEnhanced url d mr v (fun n => AttemptOutcome.crash (msgf n))
        clock elapsed hist0).1.success = false) := by
  refine ⟨?_, ?_, ?_, ?_⟩
  · intro url e1 e2
    have hb : ∀ s : String, ("Session method failed: " ++ truncate 100 s).length ≤ 123 := by
      intro s
      rw [String.length_append]
      have := truncate_length_le 100 s
      have h23 : ("Session method failed: " : String).length = 23 := by decide
      omega
    have hr : ∀ s : String, ("Both methods failed. Error: " ++ truncate 100 s).length ≤ 128 := by
      intro s
      rw [String.length_append]
      have := truncate_length_le 100 s
      have h28 : ("Both methods failed. Error: " : String).length = 28 := by decide
      omega
    refine ⟨rfl, rfl, rfl, rfl, ?_, ?_⟩
    · intro w hw
      simp [testUrlAccessibilityEnhanced] at hw
      rw [hw]
      exact hb e1
    · intro r hrm
      simp [testUrlAccessibilityEnhanced] at hrm
      rw [hrm]
      exact hr e2
  · intro url fi e fo
    refine ⟨rfl, rfl, ?_⟩
    intro msg hmsg
    have h2 : msg = "Extraction system error: " ++ truncate 200 e :=
      Option.some.inj hmsg.symm
    rw [h2, String.length_append]
    have := truncate_length_le 200 e
    have h25 : ("Extraction system error: " : String).length = 25 := by decide
    omega
  · intro rx url d e hurl hd
    have hres : validateSubmissionEnhanced rx url d (.exn e) =
        { valid := false, issues := ["Validation failed: " ++ truncate 100 e],
          warnings := ["Validation system encountered an error"], suggestions := [],
          fieldsChecked := 0, dataProvided := d.length,
          methodUsed := "error_fallback" } := by
      unfold validateSubmissionEnhanced
      rw [if_neg hurl, if_neg hd]
    rw [hres]
    refine ⟨rfl, rfl, ?_⟩
    intro i hi
    simp only [List.mem_singleton] at hi
    rw [hi, String.length_append]
    have := truncate_length_le 100 e
    have h19 : ("Validation failed: " : String).length = 19 := by decide
    omega
  · intro url d mr v msgf clock elapsed hist0
    unfold submitFormEnhanced
    by_cases h : url = "" ∨ d = []
    · rw [if_pos h]
    · rw [if_neg h]
      dsimp only
      rw [submitLoop_crash_finalResult]

/-- C8 witness: the validate conjunct at concrete inputs (non-empty URL and
data, a concrete raised message). -/
theorem C8_structured_results_witness :
    (validateSubmissionEnhanced (fun _ _ => none) "http://w.example"
      [("email", "a@b.example")] (.exn "socket timeout")).valid = false ∧
    (validateSubmissionEnhanced (fun _ _ => none) "http://w.example"
      [("email", "a@b.example")] (.exn "socket timeout")).issues =
      ["Validation failed: " ++ truncate 100 "socket timeout"] := by
  have h := C8_structured_results.2.2.1 (fun _ _ => none) "http://w.example"
    [("email", "a@b.example")] "socket timeout" (by decide) (by decide)
  exact ⟨h.1, h.2.1⟩

end HMMcp
